import Mathlib

/-!
Shallow embedding of `vmupdate/qube_connection.py` and
`vmupdate/agent/source/status.py` from qubes-core-admin-linux.

Python strings are modelled as Lean `String`, Python ints as `ℤ`,
byte buffers as `List ℕ` (one entry per byte), and Python floats as
exact rationals (`PyFloat` below) — the code only compares a parsed
progress value for equality with 100.0, which decimal inputs exercise
exactly.
-/

namespace Vmupdate

/-- `Status` enum from `status.py`. -/
inductive Status
  | wait
  | pending
  | done
deriving DecidableEq, Repr

/-- `FinalStatus` enum from `status.py`. -/
inductive FinalStatus
  | success
  | error
  | cancelled
  | noUpdates
deriving DecidableEq, Repr

/-- A Python `float` as produced by `float(<decimal string>)`, modelled
exactly: a rational for finite values, plus infinities and NaN.  IEEE-754
rounding is not modelled; the code only compares a parsed value for
equality with `100.0`, which the decimal inputs exercise exactly. -/
inductive PyFloat
  | num (q : ℚ)
  | inf (neg : Bool)
  | nan
deriving DecidableEq, Repr

/-- Python `progress == 100.` on a float: true only for the finite
value 100. -/
def PyFloat.isHundred : PyFloat → Bool
  | PyFloat.num q => q = 100
  | _ => false

/-- The `info` payload of a `StatusInfo`: `None`, a percentage, or a final status. -/
inductive StatusPayload
  | none
  | percent (p : PyFloat)
  | final (f : FinalStatus)
deriving DecidableEq, Repr

/-- `StatusInfo` value from `status.py`: target name, status tag, payload. -/
structure StatusInfo where
  qname : String
  status : Status
  info : StatusPayload
deriving DecidableEq, Repr

/-- `StatusInfo.done(qube, status)` constructor. -/
def StatusInfo.done (qname : String) (f : FinalStatus) : StatusInfo :=
  ⟨qname, Status.done, StatusPayload.final f⟩

/-- `StatusInfo.pending(qube, percent)` constructor. -/
def StatusInfo.pending (qname : String) (p : PyFloat) : StatusInfo :=
  ⟨qname, Status.pending, StatusPayload.percent p⟩

/-- `QubeConnection._string_sanitization`: keep only characters with
code point in `[0x20, 0x7e]`. -/
def string_sanitization (line : String) : String :=
  ⟨line.data.filter (fun c => 0x20 ≤ c.toNat ∧ c.toNat ≤ 0x7e)⟩

/-- Line-break characters of Python `str.splitlines` that survive an
ASCII decode: `\n`, `\v`, `\f`, `\r`, `\x1c`, `\x1d`, `\x1e`. -/
def isBreakChar (c : Char) : Bool :=
  c.toNat = 0x0a ∨ c.toNat = 0x0b ∨ c.toNat = 0x0c ∨ c.toNat = 0x0d ∨
  c.toNat = 0x1c ∨ c.toNat = 0x1d ∨ c.toNat = 0x1e

/-- Python `str.splitlines` on a character list: a break character ends the
current line (producing it even when empty), `\r\n` counts as a single break,
and a trailing break produces no extra empty line. -/
def splitlinesChars : List Char → List (List Char)
  | [] => []
  | '\r' :: '\n' :: rest => [] :: splitlinesChars rest
  | c :: rest =>
    if isBreakChar c then [] :: splitlinesChars rest
    else
      match splitlinesChars rest with
      | [] => [[c]]
      | l :: ls => (c :: l) :: ls

/-- Python `bytes.decode('ascii', errors='ignore')`: bytes `≥ 0x80` are
dropped, the rest become the characters with the same code point. -/
def decodeAsciiIgnore (bs : List ℕ) : List Char :=
  (bs.filter (fun b => b < 0x80)).map Char.ofNat

/-- Shared text-level core of `QubeConnection._collect_output`: concatenate
the two decoded buffers, split into lines, sanitize each line. -/
def collectText (stdoutChars stderrChars : List Char) : List String :=
  (splitlinesChars (stdoutChars ++ stderrChars)).map
    (fun l => string_sanitization ⟨l⟩)

/-- `QubeConnection._collect_output(untrusted_stdout, untrusted_stderr)`:
decode both byte buffers permissively, concatenate stdout text then stderr
text, split on line boundaries, sanitize each line. -/
def _collect_output (untrusted_stdout untrusted_stderr : List ℕ) : List String :=
  collectText (decodeAsciiIgnore untrusted_stdout) (decodeAsciiIgnore untrusted_stderr)

/-- Outcome of the substrate's synchronous call `target.run_with_args`:
either it returns captured stdout/stderr byte buffers, or it raises
`CalledProcessError` carrying a return code and one combined output buffer. -/
inductive SyncResult
  | ok (stdout stderr : List ℕ)
  | fail (returncode : ℤ) (output : List ℕ)
deriving DecidableEq, Repr

/-- Result of one `_run_command_and_wait_for_output` call: the returned
code, the raw `(stdout, stderr)` pair, the status events pushed to the
notifier during the call, and the `status_notified` flag afterwards. -/
structure WaitRun where
  retCode : ℤ
  stdoutBytes : List ℕ
  stderrBytes : List ℕ
  events : List StatusInfo
  notifiedAfter : Bool
deriving DecidableEq, Repr

/-- `QubeConnection._run_command_and_wait_for_output`: on success code 0
with the two captured buffers; on `CalledProcessError` the error payload
fills both buffer slots, and return code 100 is remapped to 0 with a
`Done/NO_UPDATES` event pushed (and `status_notified` set) — the push is
not guarded by the current `status_notified` value. -/
def _run_command_and_wait_for_output (qname : String) (notified : Bool)
    (r : SyncResult) : WaitRun :=
  match r with
  | SyncResult.ok out err => ⟨0, out, err, [], notified⟩
  | SyncResult.fail returncode output =>
    if returncode = 100 then
      ⟨0, output, output, [StatusInfo.done qname FinalStatus.noUpdates], true⟩
    else
      ⟨returncode, output, output, [], notified⟩

/-- `_run_shell_command_in_qube` with `show=False` (wait strategy): run the
command, then pass the raw buffers through `_collect_output`.  Returns
`((ret_code, lines), events, status_notified)`. -/
def run_shell_wait (qname : String) (notified : Bool) (r : SyncResult) :
    (ℤ × List String) × List StatusInfo × Bool :=
  let w := _run_command_and_wait_for_output qname notified r
  ((w.retCode, _collect_output w.stdoutBytes w.stderrBytes), w.events, w.notifiedAfter)

/-- Python whitespace test (`str.isspace`, also what `float()` and
`str.rstrip()` strip) restricted to the code points that can occur here:
`0x09`–`0x0d`, `0x1c`–`0x1f`, space, and `0x85`. -/
def pyIsSpace (c : Char) : Bool :=
  (9 ≤ c.toNat ∧ c.toNat ≤ 13) ∨ (28 ≤ c.toNat ∧ c.toNat ≤ 31) ∨
  c.toNat = 32 ∨ c.toNat = 0x85

/-- Python `str.rstrip()` with no arguments: drop trailing whitespace. -/
def pyRstrip (s : String) : String :=
  ⟨(s.data.reverse.dropWhile pyIsSpace).reverse⟩

/-- Consume further digits of a digit run that already holds `k ≥ 1` digits
with value `v`; a PEP-515 underscore is consumed only when a digit follows
it, otherwise the run stops in front of it (making the whole parse fail on
the leftover).  Returns `(value, digit count, leftover)`. -/
def digitRunCont (v k : ℕ) : List Char → ℕ × ℕ × List Char
  | [] => (v, k, [])
  | c :: rest =>
    if c.isDigit then digitRunCont (10 * v + (c.toNat - 48)) (k + 1) rest
    else if c = '_' then
      match rest with
      | d :: rest2 =>
        if d.isDigit then digitRunCont (10 * v + (d.toNat - 48)) (k + 1) rest2
        else (v, k, c :: rest)
      | [] => (v, k, c :: rest)
    else (v, k, c :: rest)

/-- Parse a digit run (at least one digit, PEP-515 underscores between
digits); `none` when the input does not start with a digit. -/
def parseDigitRun : List Char → Option (ℕ × ℕ × List Char)
  | [] => Option.none
  | c :: rest =>
    if c.isDigit then Option.some (digitRunCont (c.toNat - 48) 1 rest)
    else Option.none

/-- Parse the mantissa of a Python float literal:
`digits [. [digits]]` or `. digits`; returns value and leftover. -/
def parseMantissa (cs : List Char) : Option (ℚ × List Char) :=
  match parseDigitRun cs with
  | Option.some (iv, _, r1) =>
    match r1 with
    | '.' :: r2 =>
      match parseDigitRun r2 with
      | Option.some (fv, fk, r3) =>
        Option.some ((iv : ℚ) + (fv : ℚ) / (10 : ℚ) ^ fk, r3)
      | Option.none => Option.some ((iv : ℚ), r2)
    | _ => Option.some ((iv : ℚ), r1)
  | Option.none =>
    match cs with
    | '.' :: r2 =>
      match parseDigitRun r2 with
      | Option.some (fv, fk, r3) =>
        Option.some ((fv : ℚ) / (10 : ℚ) ^ fk, r3)
      | Option.none => Option.none
    | _ => Option.none

/-- Parse the optional exponent part `(e|E) [sign] digits`; returns the
signed exponent and leftover (exponent 0 when absent). -/
def parseExponent (cs : List Char) : Option (ℤ × List Char) :=
  match cs with
  | 'e' :: r1 =>
    match r1 with
    | '+' :: r2 => (parseDigitRun r2).map (fun x => ((x.1 : ℤ), x.2.2))
    | '-' :: r2 => (parseDigitRun r2).map (fun x => (-(x.1 : ℤ), x.2.2))
    | _ => (parseDigitRun r1).map (fun x => ((x.1 : ℤ), x.2.2))
  | 'E' :: r1 =>
    match r1 with
    | '+' :: r2 => (parseDigitRun r2).map (fun x => ((x.1 : ℤ), x.2.2))
    | '-' :: r2 => (parseDigitRun r2).map (fun x => (-(x.1 : ℤ), x.2.2))
    | _ => (parseDigitRun r1).map (fun x => ((x.1 : ℤ), x.2.2))
  | _ => Option.some (0, cs)

/-- Python `float(s)` on a string, with exact rational semantics for
finite values: strip whitespace, optional sign, then either a
case-insensitive `inf`/`infinity`/`nan` or a decimal mantissa with
optional exponent; anything left over makes the parse fail
(`ValueError`). -/
def parsePyFloat (s : String) : Option PyFloat :=
  let stripped := ((s.data.dropWhile pyIsSpace).reverse.dropWhile pyIsSpace).reverse
  let signAndRest : Bool × List Char :=
    match stripped with
    | '+' :: r => (false, r)
    | '-' :: r => (true, r)
    | r => (false, r)
  let neg := signAndRest.1
  let body := signAndRest.2
  let lowered := body.map Char.toLower
  if lowered = ['i', 'n', 'f'] ∨
      lowered = ['i', 'n', 'f', 'i', 'n', 'i', 't', 'y'] then
    Option.some (PyFloat.inf neg)
  else if lowered = ['n', 'a', 'n'] then
    Option.some PyFloat.nan
  else
    match parseMantissa body with
    | Option.none => Option.none
    | Option.some (m, r1) =>
      match parseExponent r1 with
      | Option.none => Option.none
      | Option.some (e, r2) =>
        if r2 = [] then
          Option.some (PyFloat.num ((if neg then -m else m) * (10 : ℚ) ^ e))
        else
          Option.none

/-- `QubeConnection._collect_stderr`, parametrised by the current latch
state `progress_finished` and the raw diagnostic lines the process yields
(each as produced by `readline`, newline included; an empty line means
end-of-stream and stops the loop).  Byte lines are modelled as text; the
strict `decode()` is the identity on them.  Returns the accumulated
`stderr` buffer and the `Pending` events pushed, in input order. -/
def _collect_stderr (qname : String) : Bool → List String → String × List StatusInfo
  | _, [] => ("", [])
  | progress_finished, untrusted_line :: rest =>
    if untrusted_line = "" then ("", [])
    else if progress_finished then
      let r := _collect_stderr qname true rest
      (untrusted_line ++ r.1, r.2)
    else
      let line := string_sanitization (pyRstrip untrusted_line)
      match parsePyFloat line with
      | Option.none =>
        let r := _collect_stderr qname false rest
        (untrusted_line ++ r.1, r.2)
      | Option.some progress =>
        let r := _collect_stderr qname (PyFloat.isHundred progress) rest
        (r.1, StatusInfo.pending qname progress :: r.2)

/-- `QubeConnection._collect_stdout`: concatenate raw stdout lines until
an empty line (end-of-stream). -/
def _collect_stdout : List String → String
  | [] => ""
  | l :: rest => if l = "" then "" else l ++ _collect_stdout rest

/-- What the substrate's `run_service` process yields in streaming mode:
the sequence of raw diagnostic-channel lines, the raw stdout lines, and
the exit code reported by `wait()`. -/
structure StreamRun where
  stderrLines : List String
  stdoutLines : List String
  returncode : ℤ
deriving DecidableEq, Repr

/-- Result of one `_run_command_and_actively_report_progress` call. -/
structure ProgressRun where
  retCode : ℤ
  stdoutText : String
  stderrText : String
  events : List StatusInfo
  notifiedAfter : Bool
deriving DecidableEq, Repr

/-- `QubeConnection._run_command_and_actively_report_progress`: drain the
diagnostic channel through `_collect_stderr` and stdout through
`_collect_stdout`, await the exit code, and remap exit code 100 to 0 with
a `Done/NO_UPDATES` event pushed (and `status_notified` set) — again not
guarded by the current `status_notified` value. -/
def _run_command_and_actively_report_progress (qname : String)
    (notified : Bool) (r : StreamRun) : ProgressRun :=
  let se := _collect_stderr qname false r.stderrLines
  let so := _collect_stdout r.stdoutLines
  if r.returncode = 100 then
    ⟨0, so, se.1, se.2 ++ [StatusInfo.done qname FinalStatus.noUpdates], true⟩
  else
    ⟨r.returncode, so, se.1, se.2, notified⟩

/-- `_run_shell_command_in_qube` with `show=True` (streaming strategy):
run the service, then pass both captured buffers through the
`_collect_output` line pipeline. -/
def run_shell_show (qname : String) (notified : Bool) (r : StreamRun) :
    (ℤ × List String) × List StatusInfo × Bool :=
  let p := _run_command_and_actively_report_progress qname notified r
  ((p.retCode, collectText p.stdoutText.data p.stderrText.data),
   p.events, p.notifiedAfter)

/-- `CommandResult` of the spec: integer exit code plus ordered sanitized
lines.  Every multi-step operation in the code combines two of these
inline via `exit_code = max(exit_code, exit_code_)` and
`output += output_`. -/
structure CommandResult where
  code : ℤ
  lines : List String
deriving DecidableEq, Repr

/-- The inline combination pattern of `run_entrypoint` and
`transfer_agent`: maximum of the exit codes, concatenation of the line
sequences in step order. -/
def combine (a b : CommandResult) : CommandResult :=
  ⟨max a.code b.code, a.lines ++ b.lines⟩

/-- The mutable state of a `QubeConnection` object, plus the constructor
arguments it keeps (the logger and the notifier object are not state:
events pushed to the notifier are returned as outputs of each operation). -/
structure Session where
  qname : String
  dest_dir : String
  cleanup : Bool
  show_progress : Bool
  status_notified : Bool
  initially_running : Option Bool
  connected : Bool
deriving DecidableEq, Repr

/-- `QubeConnection.__init__`: constructed inert, nothing captured yet. -/
def QubeConnection.init (qname dest_dir : String)
    (cleanup show_progress : Bool) : Session :=
  ⟨qname, dest_dir, cleanup, show_progress, false, Option.none, false⟩

/-- `QubeConnection.__enter__`: capture `qube.is_running()` and mark the
session connected. -/
def QubeConnection.enter (s : Session) (is_running : Bool) : Session :=
  { s with initially_running := Option.some is_running, connected := true }

/-- Python truthiness of `not self._initially_running`
(`None` is falsy, so `not None` is true). -/
def pythonTruthyNot : Option Bool → Bool
  | Option.none => true
  | Option.some b => !b

/-- Observable outcome of `QubeConnection.__exit__` (and of a whole
session scope): events pushed, shell commands issued in the qube,
whether `qube.shutdown()` was called, and the session state afterwards. -/
structure SessionTrace where
  events : List StatusInfo
  commands : List (List String)
  shutdownCalled : Bool
  sessionAfter : Session
deriving DecidableEq, Repr

/-- `QubeConnection.__exit__`: (1) if no final status was emitted, push
`Done/SUCCESS`; (2) if `cleanup`, run `rm -r dest_dir` in the qube (its
substrate outcome is `rmR`); (3) call `qube.shutdown()` iff the qube is
running now (`running_now`, sampled after the cleanup command) and
`not self._initially_running` is truthy; finally mark disconnected. -/
def QubeConnection.exit (s : Session) (running_now : Bool)
    (rmR : SyncResult) : SessionTrace :=
  let ev1 := if s.status_notified then []
             else [StatusInfo.done s.qname FinalStatus.success]
  let cleanupRes : List (List String) × List StatusInfo × Bool :=
    if s.cleanup then
      let w := run_shell_wait s.qname s.status_notified rmR
      ([["rm", "-r", s.dest_dir]], w.2.1, w.2.2)
    else ([], [], s.status_notified)
  let sd := running_now && pythonTruthyNot s.initially_running
  ⟨ev1 ++ cleanupRes.2.1, cleanupRes.1, sd,
   { s with status_notified := cleanupRes.2.2, connected := false }⟩

/-- What a `with QubeConnection(...) as conn:` body did: the session
state it left behind, the events and commands its operations produced,
and whether it raised.  `__exit__` runs regardless of `raised` — that is
the `with`-statement guarantee the embedding encodes by construction. -/
structure BodyOutcome where
  sessionAfter : Session
  events : List StatusInfo
  commands : List (List String)
  raised : Bool
deriving DecidableEq, Repr

/-- A whole `with QubeConnection(...)` scope: construct, enter, run an
arbitrary body (which may raise), then always run `__exit__`. -/
def withQubeConnection (qname dest_dir : String)
    (cleanup show_progress : Bool) (running_at_entry running_at_exit : Bool)
    (rmR : SyncResult) (body : Session → BodyOutcome) : SessionTrace :=
  let s0 := QubeConnection.enter
    (QubeConnection.init qname dest_dir cleanup show_progress) running_at_entry
  let b := body s0
  let ex := QubeConnection.exit b.sessionAfter running_at_exit rmR
  ⟨b.events ++ ex.events, b.commands ++ ex.commands,
   ex.shutdownCalled, ex.sessionAfter⟩

/-- Strip leading and trailing `/` (Python `src_dir.strip(os.sep)`). -/
def pyStripSep (s : String) : String :=
  ⟨((s.data.dropWhile (· = '/')).reverse.dropWhile (· = '/')).reverse⟩

/-- POSIX `os.path.basename`: everything after the last `/`. -/
def osBasename (s : String) : String :=
  ⟨(s.data.reverse.takeWhile (· ≠ '/')).reverse⟩

/-- POSIX `os.path.join` for two components. -/
def pathJoin (a b : String) : String :=
  if b.data.head? = Option.some '/' then b
  else if a.data = [] ∨ a.data.getLast? = Option.some '/' then a ++ b
  else a ++ "/" ++ b

/-- How the local `qvm-run --pass-io` copy process went: the `open`/spawn
raised an `OSError` with some message, or the process ran and finished
with a return code. -/
inductive CopyRun
  | openFailed (msg : String)
  | ran (returncode : ℤ)
deriving DecidableEq, Repr

/-- `QubeConnection._copy_file_from_dom0`: success returns `(0, "")`; a
nonzero process code raises `OSError(f"Command returns code: {code}")`
which — like an open failure — is caught and reported as code 1 with the
message as output.  Note the output is a plain `str`, not a line list. -/
def _copy_file_from_dom0 : CopyRun → ℤ × String
  | CopyRun.openFailed msg => (1, msg)
  | CopyRun.ran returncode =>
    if returncode ≠ 0 then (1, s!"Command returns code: {returncode}")
    else (returncode, "")

/-- The `assert self.__connected` contract violation. -/
inductive ContractViolation
  | assertionFailed
deriving DecidableEq, Repr

/-- Decidable equality for `Except`, so that concrete operation outcomes
can be checked by `decide`. -/
instance {ε α : Type} [DecidableEq ε] [DecidableEq α] :
    DecidableEq (Except ε α) := fun x y =>
  match x, y with
  | Except.ok a, Except.ok b =>
    if h : a = b then Decidable.isTrue (by rw [h])
    else Decidable.isFalse (by intro hh; cases hh; exact h rfl)
  | Except.error a, Except.error b =>
    if h : a = b then Decidable.isTrue (by rw [h])
    else Decidable.isFalse (by intro hh; cases hh; exact h rfl)
  | Except.ok _, Except.error _ => Decidable.isFalse (by intro hh; cases hh)
  | Except.error _, Except.ok _ => Decidable.isFalse (by intro hh; cases hh)

/-- Observable outcome of `transfer_agent`: the returned
`(exit_code, output)` pair, the shell commands issued in the qube,
whether the dom0→qube copy process was spawned at all, the status events
pushed, and the `status_notified` flag afterwards. -/
structure TransferTrace where
  result : ℤ × List String
  commands : List (List String)
  copyAttempted : Bool
  events : List StatusInfo
  notifiedAfter : Bool
deriving DecidableEq, Repr

/-- `QubeConnection.transfer_agent`: asserts the connection is open, then
(A) `mkdir -p dest_dir` — returning A's result alone if its code is
nonzero, before any copy; (B) the dom0→qube byte copy, whose string
output is appended to the line list via `output += output_` (Python
extends the list with one element per character); short-circuit if the
combined code is nonzero; (C) `tar -xzf` extraction, combined in.  The preceding local archive
step (`tempfile.mkdtemp` + `shutil.make_archive`) has no caught failure
path and no observable effect in the qube, so it is not modelled. -/
def transfer_agent (s : Session) (src_dir : String)
    (mkdirR : SyncResult) (copyR : CopyRun) (tarR : SyncResult) :
    Except ContractViolation TransferTrace :=
  if !s.connected then Except.error ContractViolation.assertionFailed
  else
    let base_dir := osBasename (pyStripSep src_dir)
    let dest_arch := pathJoin s.dest_dir (base_dir ++ ".tar.gz")
    let mkdirCmd := ["mkdir", "-p", s.dest_dir]
    let w1 := run_shell_wait s.qname s.status_notified mkdirR
    let exit1 := w1.1.1
    let out1 := w1.1.2
    if exit1 ≠ 0 then
      Except.ok ⟨(exit1, out1), [mkdirCmd], false, w1.2.1, w1.2.2⟩
    else
      let c := _copy_file_from_dom0 copyR
      let exit2 := max exit1 c.1
      let out2 := out1 ++ c.2.data.map (fun ch => (⟨[ch]⟩ : String))
      if exit2 ≠ 0 then
        Except.ok ⟨(exit2, out2), [mkdirCmd], true, w1.2.1, w1.2.2⟩
      else
        let tarCmd := ["tar", "-xzf", dest_arch, "-C", s.dest_dir]
        let w3 := run_shell_wait s.qname w1.2.2 tarR
        Except.ok ⟨(max exit2 w3.1.1, out2 ++ w3.1.2), [mkdirCmd, tarCmd],
          true, w1.2.1 ++ w3.2.1, w3.2.2⟩

/-- Observable outcome of `run_entrypoint` / `read_logs` (no copy step). -/
structure OpTrace where
  result : ℤ × List String
  commands : List (List String)
  events : List StatusInfo
  notifiedAfter : Bool
deriving DecidableEq, Repr

/-- `QubeConnection.run_entrypoint`: `chmod u+x` the entrypoint (step A,
wait strategy), then run it with the serialized agent args (step B,
streaming strategy iff `show_progress`), combining codes by `max` and
concatenating outputs.  It never consults `self.__connected`.
`cli_args` stands for `AgentArgs.to_cli_args(agent_args)`, an external
serializer.  `runWaitR`/`runStreamR` are the substrate outcomes for step
B under the respective strategy (only the selected one is consulted). -/
def run_entrypoint (s : Session) (entrypoint_path : String)
    (cli_args : List String) (chmodR : SyncResult) (runWaitR : SyncResult)
    (runStreamR : StreamRun) : OpTrace :=
  let chmodCmd := ["chmod", "u+x", entrypoint_path]
  let w1 := run_shell_wait s.qname s.status_notified chmodR
  let runCmd := entrypoint_path :: cli_args
  let w2 := if s.show_progress then run_shell_show s.qname w1.2.2 runStreamR
            else run_shell_wait s.qname w1.2.2 runWaitR
  ⟨(max w1.1.1 w2.1.1, w1.1.2 ++ w2.1.2), [chmodCmd, runCmd],
    w1.2.1 ++ w2.2.1, w2.2.2⟩

/-- Modelled from the spec: `log_congfig.py` (module `LOGPATH`, the fixed
log directory inside the target) is not among the analysed sources; the
spec says only that the log path is a fixed, externally configured
location.  The concrete value is immaterial to every claim. -/
def LOGPATH : String := "/var/log/vmupdate"

/-- Modelled from the spec: `log_congfig.py` (module `LOG_FILE`, the
fixed log file name), as for `LOGPATH`. -/
def LOG_FILE : String := "vmupdate.log"

/-- `QubeConnection.read_logs`: run `cat <LOGPATH>/<LOG_FILE>` in the
qube.  It never consults `self.__connected`. -/
def read_logs (s : Session) (r : SyncResult) : OpTrace :=
  let cmd := ["cat", pathJoin LOGPATH LOG_FILE]
  let w := run_shell_wait s.qname s.status_notified r
  ⟨(w.1.1, w.1.2), [cmd], w.2.1, w.2.2⟩

/-- The exit code the wait strategy reports for a given substrate
outcome: 0 on success, the error code with 100 remapped to 0 otherwise. -/
def remappedCode : SyncResult → ℤ
  | SyncResult.ok _ _ => 0
  | SyncResult.fail returncode _ => if returncode = 100 then 0 else returncode

/-- Whether a substrate outcome is a failure with the distinguished
exit code 100. -/
def isFail100 : SyncResult → Bool
  | SyncResult.fail returncode _ => returncode = 100
  | _ => false

/-- A sequence of wait-strategy commands run in one session, threading
the `status_notified` flag from call to call: returns the list of
returned codes, all events pushed, and the final flag. -/
def runWaitSeq (qname : String) : Bool → List SyncResult → List ℤ × List StatusInfo × Bool
  | notified, [] => ([], [], notified)
  | notified, r :: rs =>
    let w := run_shell_wait qname notified r
    let rest := runWaitSeq qname w.2.2 rs
    (w.1.1 :: rest.1, w.2.1 ++ rest.2.1, rest.2.2)

/-- The classification `_collect_stderr` applies to one raw diagnostic
line before the latch: sanitize the rstripped line and try `float()`. -/
def classifiedOf (l : String) : Option PyFloat :=
  parsePyFloat (string_sanitization (pyRstrip l))

/-- Whether a raw diagnostic line triggers the one-way latch: it
classifies as a float equal to 100.0. -/
def latchesLine (l : String) : Bool :=
  match classifiedOf l with
  | Option.some p => PyFloat.isHundred p
  | Option.none => false

/-- Concatenation of a list of strings (the diagnostic buffer built by
repeated `stderr += untrusted_line`). -/
def joinAll (ls : List String) : String := ls.foldr (· ++ ·) ""

/-- Step B of `run_entrypoint` in isolation: run the entrypoint with the
strategy selected by `show_progress`, after step A threaded the
`status_notified` flag. -/
def entry_step2 (s : Session) (chmodR runWaitR : SyncResult)
    (runStreamR : StreamRun) : (ℤ × List String) × List StatusInfo × Bool :=
  if s.show_progress then
    run_shell_show s.qname (run_shell_wait s.qname s.status_notified chmodR).2.2 runStreamR
  else
    run_shell_wait s.qname (run_shell_wait s.qname s.status_notified chmodR).2.2 runWaitR

/-- A session that has been constructed and entered (target initially
stopped), used to instantiate theorems at a concrete state. -/
def sampleSession : Session :=
  QubeConnection.enter (QubeConnection.init "vm" "/dst" true false) false

/-- A session that was constructed but never entered (`__connected`
still false). -/
def inertSession : Session := QubeConnection.init "vm" "/dst" true false

end Vmupdate

/-- C6: sanitize keeps only `[0x20,0x7e]` characters and is idempotent. -/
theorem C6_sanitize_range_and_idempotent (s : String) :
    (∀ c ∈ (Vmupdate.string_sanitization s).data,
        0x20 ≤ c.toNat ∧ c.toNat ≤ 0x7e) ∧
    Vmupdate.string_sanitization (Vmupdate.string_sanitization s) =
      Vmupdate.string_sanitization s := by
  constructor
  · intro c hc
    have := List.of_mem_filter hc
    simpa using of_decide_eq_true this
  · unfold Vmupdate.string_sanitization
    simp [List.filter_filter]

/-- C3 counterexample: with directory creation failing (exit 2) and a
copy that would succeed, `transfer_agent` returns A's result alone, the
copy process is never spawned, and no further command is issued — the
copy step is NOT still performed. -/
theorem C3_counterexample :
    Vmupdate.transfer_agent Vmupdate.sampleSession "/src/agent"
        (Vmupdate.SyncResult.fail 2 [101, 114, 114, 10])
        (Vmupdate.CopyRun.ran 0) (Vmupdate.SyncResult.ok [] []) =
      Except.ok ⟨(2, ["err", "err"]), [["mkdir", "-p", "/dst"]], false, [], false⟩ := by
  decide

/-- C3 (amended): when the directory-creation step fails with a nonzero
(remapped) exit code, the transfer aborts immediately: it returns step
A's result alone, the copy is not attempted, and only the `mkdir`
command was issued. -/
theorem C3_mkdir_failure_aborts (s : Vmupdate.Session) (src : String)
    (mkdirR : Vmupdate.SyncResult) (copyR : Vmupdate.CopyRun)
    (tarR : Vmupdate.SyncResult) (hc : s.connected = true)
    (hm : (Vmupdate.run_shell_wait s.qname s.status_notified mkdirR).1.1 ≠ 0) :
    Vmupdate.transfer_agent s src mkdirR copyR tarR =
      Except.ok ⟨(Vmupdate.run_shell_wait s.qname s.status_notified mkdirR).1,
        [["mkdir", "-p", s.dest_dir]], false,
        (Vmupdate.run_shell_wait s.qname s.status_notified mkdirR).2.1,
        (Vmupdate.run_shell_wait s.qname s.status_notified mkdirR).2.2⟩ := by
  unfold Vmupdate.transfer_agent
  rw [hc]
  simp [hm]

/-- C3 witness: the amended theorem applied at a concrete input. -/
theorem C3_witness :
    Vmupdate.transfer_agent Vmupdate.sampleSession "/src/agent"
        (Vmupdate.SyncResult.fail 3 [120, 10])
        (Vmupdate.CopyRun.ran 0) (Vmupdate.SyncResult.ok [] []) =
      Except.ok ⟨(3, ["x", "x"]), [["mkdir", "-p", "/dst"]], false, [], false⟩ := by
  have h := C3_mkdir_failure_aborts Vmupdate.sampleSession "/src/agent"
    (Vmupdate.SyncResult.fail 3 [120, 10])
    (Vmupdate.CopyRun.ran 0) (Vmupdate.SyncResult.ok [] []) (by decide) (by decide)
  rw [h]
  with_unfolding_all decide

/-- C4 counterexample: on a session that was never entered
(`__connected` is false), `read_logs` and `run_entrypoint` do not fail
with a contract violation — they issue their commands to the target and
return normally.  Only `transfer_agent` has the `assert`. -/
theorem C4_counterexample :
    (Vmupdate.read_logs Vmupdate.inertSession
        (Vmupdate.SyncResult.ok [108, 111, 103, 10] [])).commands =
      [["cat", "/var/log/vmupdate/vmupdate.log"]] ∧
    (Vmupdate.read_logs Vmupdate.inertSession
        (Vmupdate.SyncResult.ok [108, 111, 103, 10] [])).result = (0, ["log"]) ∧
    (Vmupdate.run_entrypoint Vmupdate.inertSession "/dst/entrypoint.py" []
        (Vmupdate.SyncResult.ok [] []) (Vmupdate.SyncResult.ok [] [])
        ⟨[], [], 0⟩).commands =
      [["chmod", "u+x", "/dst/entrypoint.py"], ["/dst/entrypoint.py"]] := by
  decide

/-- C4 (amended): only the transfer operation guards the active-session
contract — on an inactive session it fails with the assertion violation
before issuing any command — while `run_entrypoint` and `read_logs`
never consult the connected flag and issue their commands on any
session state. -/
theorem C4_only_transfer_guards (s : Vmupdate.Session)
    (src entry : String) (args : List String)
    (mkdirR tarR chmodR runWaitR logsR : Vmupdate.SyncResult)
    (copyR : Vmupdate.CopyRun) (runStreamR : Vmupdate.StreamRun)
    (hc : s.connected = false) :
    Vmupdate.transfer_agent s src mkdirR copyR tarR =
      Except.error Vmupdate.ContractViolation.assertionFailed ∧
    (Vmupdate.read_logs s logsR).commands =
      [["cat", Vmupdate.pathJoin Vmupdate.LOGPATH Vmupdate.LOG_FILE]] ∧
    (Vmupdate.run_entrypoint s entry args chmodR runWaitR runStreamR).commands =
      [["chmod", "u+x", entry], entry :: args] := by
  refine ⟨?_, rfl, rfl⟩
  unfold Vmupdate.transfer_agent
  rw [hc]
  rfl

/-- C4 witness: the amended theorem applied at a concrete inactive
session. -/
theorem C4_witness :
    Vmupdate.transfer_agent Vmupdate.inertSession "/src/agent"
        (Vmupdate.SyncResult.ok [] []) (Vmupdate.CopyRun.ran 0)
        (Vmupdate.SyncResult.ok [] []) =
      Except.error Vmupdate.ContractViolation.assertionFailed := by
  exact (C4_only_transfer_guards Vmupdate.inertSession "/src/agent" "/e" []
    (Vmupdate.SyncResult.ok [] []) (Vmupdate.SyncResult.ok [] [])
    (Vmupdate.SyncResult.ok [] []) (Vmupdate.SyncResult.ok [] [])
    (Vmupdate.SyncResult.ok [] []) (Vmupdate.CopyRun.ran 0)
    ⟨[], [], 0⟩ (by decide)).1

/-- Helper shared by C8 and C10: with directory creation reporting
code 0 and the copy step failing, the whole observable outcome of
`transfer_agent` — short-circuit before extraction, `max(0, copyCode)`,
mkdir lines plus the copy error characters, only the `mkdir` command
issued. -/
theorem transfer_copy_failure_eq (s : Vmupdate.Session) (src : String)
    (mkdirR tarR : Vmupdate.SyncResult) (copyR : Vmupdate.CopyRun)
    (hc : s.connected = true)
    (hm : (Vmupdate.run_shell_wait s.qname s.status_notified mkdirR).1.1 = 0)
    (hcp : (Vmupdate._copy_file_from_dom0 copyR).1 ≠ 0) :
    Vmupdate.transfer_agent s src mkdirR copyR tarR =
      Except.ok ⟨(max 0 (Vmupdate._copy_file_from_dom0 copyR).1,
        (Vmupdate.run_shell_wait s.qname s.status_notified mkdirR).1.2 ++
          (Vmupdate._copy_file_from_dom0 copyR).2.data.map
            (fun ch => (⟨[ch]⟩ : String))),
        [["mkdir", "-p", s.dest_dir]], true,
        (Vmupdate.run_shell_wait s.qname s.status_notified mkdirR).2.1,
        (Vmupdate.run_shell_wait s.qname s.status_notified mkdirR).2.2⟩ := by
  have h1 : (Vmupdate._copy_file_from_dom0 copyR).1 = 1 := by
    cases copyR with
    | openFailed msg => rfl
    | ran rc =>
      by_cases h : rc = 0
      · subst h; simp [Vmupdate._copy_file_from_dom0] at hcp
      · simp [Vmupdate._copy_file_from_dom0, h]
  unfold Vmupdate.transfer_agent
  rw [hc]
  simp [hm, h1]

/-- C8: when directory creation reports code 0 and the copy step fails,
the transfer short-circuits before extraction: the result carries
`max(0, copyCode)`, the output is the mkdir lines plus the copy error
text only, and the only command issued in the qube is the `mkdir` — no
extraction command. -/
theorem C8_copy_failure_short_circuits (s : Vmupdate.Session) (src : String)
    (mkdirR tarR : Vmupdate.SyncResult) (copyR : Vmupdate.CopyRun)
    (hc : s.connected = true)
    (hm : (Vmupdate.run_shell_wait s.qname s.status_notified mkdirR).1.1 = 0)
    (hcp : (Vmupdate._copy_file_from_dom0 copyR).1 ≠ 0) :
    Vmupdate.transfer_agent s src mkdirR copyR tarR =
      Except.ok ⟨(max 0 (Vmupdate._copy_file_from_dom0 copyR).1,
        (Vmupdate.run_shell_wait s.qname s.status_notified mkdirR).1.2 ++
          (Vmupdate._copy_file_from_dom0 copyR).2.data.map
            (fun ch => (⟨[ch]⟩ : String))),
        [["mkdir", "-p", s.dest_dir]], true,
        (Vmupdate.run_shell_wait s.qname s.status_notified mkdirR).2.1,
        (Vmupdate.run_shell_wait s.qname s.status_notified mkdirR).2.2⟩ :=
  transfer_copy_failure_eq s src mkdirR tarR copyR hc hm hcp

/-- C8 witness: the short-circuit theorem applied at a concrete input
(mkdir succeeds with output "ok", the copy process exits 2). -/
theorem C8_witness :
    Vmupdate.transfer_agent Vmupdate.sampleSession "/src/agent"
        (Vmupdate.SyncResult.ok [111, 107, 10] []) (Vmupdate.CopyRun.ran 2)
        (Vmupdate.SyncResult.ok [] []) =
      Except.ok ⟨(1, ["ok", "C", "o", "m", "m", "a", "n", "d", " ", "r", "e",
        "t", "u", "r", "n", "s", " ", "c", "o", "d", "e", ":", " ", "2"]),
        [["mkdir", "-p", "/dst"]], true, [], false⟩ := by
  have h := C8_copy_failure_short_circuits Vmupdate.sampleSession "/src/agent"
    (Vmupdate.SyncResult.ok [111, 107, 10] []) (Vmupdate.SyncResult.ok [] [])
    (Vmupdate.CopyRun.ran 2) (by decide) (by decide) (by decide)
  rw [h]
  with_unfolding_all decide

/-- C10: the copy step reports its output as a plain string, so on a
copy failure `output += output_` extends the line list with one element
per character: the error message reaches the caller as single-character
entries, never as one line. -/
theorem C10_copy_error_arrives_char_by_char (s : Vmupdate.Session)
    (src : String) (mkdirR tarR : Vmupdate.SyncResult)
    (copyR : Vmupdate.CopyRun) (hc : s.connected = true)
    (hm : (Vmupdate.run_shell_wait s.qname s.status_notified mkdirR).1.1 = 0)
    (hcp : (Vmupdate._copy_file_from_dom0 copyR).1 ≠ 0) :
    ∃ tr, Vmupdate.transfer_agent s src mkdirR copyR tarR = Except.ok tr ∧
      tr.result.2 = (Vmupdate.run_shell_wait s.qname s.status_notified mkdirR).1.2 ++
        (Vmupdate._copy_file_from_dom0 copyR).2.data.map
          (fun ch => (⟨[ch]⟩ : String)) ∧
      ∀ e ∈ (Vmupdate._copy_file_from_dom0 copyR).2.data.map
          (fun ch => (⟨[ch]⟩ : String)), e.length = 1 := by
  refine ⟨_, transfer_copy_failure_eq s src mkdirR tarR copyR hc hm hcp, rfl, ?_⟩
  intro e he
  obtain ⟨ch, _, rfl⟩ := List.mem_map.mp he
  rfl

/-- Helper for C1: codes and events of a wait-strategy command sequence,
independent of the incoming `status_notified` flag — one `NO_UPDATES`
event per exit-100 failure. -/
theorem runWaitSeq_characterization (qname : String) (rs : List Vmupdate.SyncResult) :
    ∀ notified : Bool,
      (Vmupdate.runWaitSeq qname notified rs).1 = rs.map Vmupdate.remappedCode ∧
      (Vmupdate.runWaitSeq qname notified rs).2.1 =
        List.replicate (rs.countP (fun r => Vmupdate.isFail100 r))
          (Vmupdate.StatusInfo.done qname Vmupdate.FinalStatus.noUpdates) := by
  induction rs with
  | nil => intro notified; exact ⟨rfl, rfl⟩
  | cons r rs ih =>
    intro notified
    cases r with
    | ok o e =>
      constructor
      · simpa [Vmupdate.runWaitSeq, Vmupdate.run_shell_wait,
          Vmupdate._run_command_and_wait_for_output,
          Vmupdate.remappedCode] using (ih notified).1
      · simpa [Vmupdate.runWaitSeq, Vmupdate.run_shell_wait,
          Vmupdate._run_command_and_wait_for_output, Vmupdate.isFail100,
          List.countP_cons] using (ih notified).2
    | fail rc out =>
      by_cases h100 : rc = 100
      · constructor
        · simpa [Vmupdate.runWaitSeq, Vmupdate.run_shell_wait,
            Vmupdate._run_command_and_wait_for_output, Vmupdate.remappedCode,
            h100] using (ih true).1
        · simpa [Vmupdate.runWaitSeq, Vmupdate.run_shell_wait,
            Vmupdate._run_command_and_wait_for_output, Vmupdate.isFail100,
            List.countP_cons, List.replicate_succ, h100] using (ih true).2
      · constructor
        · simpa [Vmupdate.runWaitSeq, Vmupdate.run_shell_wait,
            Vmupdate._run_command_and_wait_for_output, Vmupdate.remappedCode,
            h100] using (ih notified).1
        · simpa [Vmupdate.runWaitSeq, Vmupdate.run_shell_wait,
            Vmupdate._run_command_and_wait_for_output, Vmupdate.isFail100,
            List.countP_cons, h100] using (ih notified).2

/-- C1 counterexample: two wait-strategy commands in the same session
that both fail with exit code 100 push TWO `Done/NO_UPDATES` events —
the emission is not guarded by the already-emitted flag — though both
returned codes are remapped to 0. -/
theorem C1_counterexample :
    (Vmupdate.runWaitSeq "vm" false
        [Vmupdate.SyncResult.fail 100 [], Vmupdate.SyncResult.fail 100 []]).2.1 =
      [Vmupdate.StatusInfo.done "vm" Vmupdate.FinalStatus.noUpdates,
       Vmupdate.StatusInfo.done "vm" Vmupdate.FinalStatus.noUpdates] ∧
    ¬ ((Vmupdate.runWaitSeq "vm" false
        [Vmupdate.SyncResult.fail 100 [], Vmupdate.SyncResult.fail 100 []]).2.1.length = 1) ∧
    (Vmupdate.runWaitSeq "vm" false
        [Vmupdate.SyncResult.fail 100 [], Vmupdate.SyncResult.fail 100 []]).1 = [0, 0] := by
  decide

/-- C1 (amended): every command whose substrate result carries exit
code 100 — on either strategy — is reported with returned code 0 and
pushes its own `Done/NO_UPDATES` event, regardless of whether a final
status was already emitted: the `status_notified` flag set here only
suppresses the `Done/SUCCESS` event at teardown, so a session running
n commands that fail with code 100 gets n `NO_UPDATES` events. -/
theorem C1_exit100_remap_unguarded (qname : String) (notified : Bool)
    (rc : ℤ) (out : List ℕ) (sr : Vmupdate.StreamRun)
    (rs : List Vmupdate.SyncResult) :
    Vmupdate._run_command_and_wait_for_output qname notified
        (Vmupdate.SyncResult.fail rc out) =
      ⟨if rc = 100 then 0 else rc, out, out,
       if rc = 100 then [Vmupdate.StatusInfo.done qname Vmupdate.FinalStatus.noUpdates] else [],
       if rc = 100 then true else notified⟩ ∧
    (Vmupdate._run_command_and_actively_report_progress qname notified sr).retCode =
      (if sr.returncode = 100 then 0 else sr.returncode) ∧
    (Vmupdate._run_command_and_actively_report_progress qname notified sr).events =
      (Vmupdate._collect_stderr qname false sr.stderrLines).2 ++
        (if sr.returncode = 100 then [Vmupdate.StatusInfo.done qname Vmupdate.FinalStatus.noUpdates] else []) ∧
    (Vmupdate._run_command_and_actively_report_progress qname notified sr).notifiedAfter =
      (if sr.returncode = 100 then true else notified) ∧
    (Vmupdate.runWaitSeq qname notified rs).1 = rs.map Vmupdate.remappedCode ∧
    (Vmupdate.runWaitSeq qname notified rs).2.1 =
      List.replicate (rs.countP (fun r => Vmupdate.isFail100 r))
        (Vmupdate.StatusInfo.done qname Vmupdate.FinalStatus.noUpdates) := by
  refine ⟨?_, ?_, ?_, ?_, (runWaitSeq_characterization qname rs notified).1,
    (runWaitSeq_characterization qname rs notified).2⟩
  · by_cases h : rc = 100 <;>
      simp [Vmupdate._run_command_and_wait_for_output, h]
  · by_cases h : sr.returncode = 100 <;>
      simp [Vmupdate._run_command_and_actively_report_progress, h]
  · by_cases h : sr.returncode = 100 <;>
      simp [Vmupdate._run_command_and_actively_report_progress, h]
  · by_cases h : sr.returncode = 100 <;>
      simp [Vmupdate._run_command_and_actively_report_progress, h]

/-- C2 counterexample: a session that performs no operations and raises
no error, but whose cleanup `rm -r` command exits with the distinguished
code 100, emits TWO status events — `Done/SUCCESS` from teardown step
(1) and then `Done/NO_UPDATES` from the cleanup command's remap — not
exactly one. -/
theorem C2_counterexample :
    (Vmupdate.withQubeConnection "vm" "/dst" true false false false
        (Vmupdate.SyncResult.fail 100 []) (fun s => ⟨s, [], [], false⟩)).events =
      [Vmupdate.StatusInfo.done "vm" Vmupdate.FinalStatus.success,
       Vmupdate.StatusInfo.done "vm" Vmupdate.FinalStatus.noUpdates] ∧
    ¬ ((Vmupdate.withQubeConnection "vm" "/dst" true false false false
        (Vmupdate.SyncResult.fail 100 []) (fun s => ⟨s, [], [], false⟩)).events.length = 1) := by
  decide

/-- C2 (amended): on every exit of a session scope — normal return,
error raised mid-scope, or zero operations — teardown runs in the fixed
order: (1) `Done/SUCCESS` is emitted iff no final status was emitted;
(2) iff the cleanup flag is set, `rm -r dest_dir` is run; (3) shutdown
happens exactly when the target runs now and was not running at entry;
and the session is marked inactive.  A no-op, no-error session emits
exactly one `Done/SUCCESS` event, plus one `Done/NO_UPDATES` event
exactly when cleanup is requested and the cleanup command itself exits
with code 100. -/
theorem C2_teardown_structure (s : Vmupdate.Session) (running_now : Bool)
    (rmR : Vmupdate.SyncResult) (qname dest_dir : String)
    (cleanup show_progress re rx : Bool)
    (body : Vmupdate.Session → Vmupdate.BodyOutcome) :
    (Vmupdate.QubeConnection.exit s running_now rmR).events =
      (if s.status_notified then []
       else [Vmupdate.StatusInfo.done s.qname Vmupdate.FinalStatus.success]) ++
      (if s.cleanup then (Vmupdate.run_shell_wait s.qname s.status_notified rmR).2.1
       else []) ∧
    (Vmupdate.QubeConnection.exit s running_now rmR).commands =
      (if s.cleanup then [["rm", "-r", s.dest_dir]] else []) ∧
    (Vmupdate.QubeConnection.exit s running_now rmR).shutdownCalled =
      (running_now && Vmupdate.pythonTruthyNot s.initially_running) ∧
    (∀ b0 : Bool, Vmupdate.pythonTruthyNot (Option.some b0) = !b0) ∧
    (Vmupdate.QubeConnection.exit s running_now rmR).sessionAfter.connected = false ∧
    (Vmupdate.withQubeConnection qname dest_dir cleanup show_progress re rx rmR
        body).events =
      (body (Vmupdate.QubeConnection.enter
        (Vmupdate.QubeConnection.init qname dest_dir cleanup show_progress) re)).events ++
      (Vmupdate.QubeConnection.exit
        (body (Vmupdate.QubeConnection.enter
          (Vmupdate.QubeConnection.init qname dest_dir cleanup show_progress) re)).sessionAfter
        rx rmR).events ∧
    (Vmupdate.withQubeConnection qname dest_dir cleanup show_progress re rx rmR
        body).sessionAfter.connected = false ∧
    (Vmupdate.withQubeConnection qname dest_dir cleanup show_progress re rx rmR
        (fun s1 => ⟨s1, [], [], false⟩)).events =
      Vmupdate.StatusInfo.done qname Vmupdate.FinalStatus.success ::
        (if cleanup && Vmupdate.isFail100 rmR
         then [Vmupdate.StatusInfo.done qname Vmupdate.FinalStatus.noUpdates]
         else []) := by
  refine ⟨?_, ?_, rfl, fun b0 => rfl, rfl, rfl, rfl, ?_⟩
  · by_cases hn : s.status_notified <;> by_cases hcl : s.cleanup <;>
      simp [Vmupdate.QubeConnection.exit, hn, hcl]
  · by_cases hcl : s.cleanup <;> simp [Vmupdate.QubeConnection.exit, hcl]
  · cases rmR with
    | ok o e =>
      by_cases hcl : cleanup <;>
        simp [Vmupdate.withQubeConnection, Vmupdate.QubeConnection.exit,
          Vmupdate.QubeConnection.enter, Vmupdate.QubeConnection.init,
          Vmupdate.run_shell_wait, Vmupdate._run_command_and_wait_for_output,
          Vmupdate.isFail100, hcl]
    | fail rc out =>
      by_cases hcl : cleanup <;> by_cases h100 : rc = 100 <;>
        simp [Vmupdate.withQubeConnection, Vmupdate.QubeConnection.exit,
          Vmupdate.QubeConnection.enter, Vmupdate.QubeConnection.init,
          Vmupdate.run_shell_wait, Vmupdate._run_command_and_wait_for_output,
          Vmupdate.isFail100, hcl, h100]

/-- C7 counterexample: a later successful step CAN mask an earlier
nonzero exit code when that code is negative (a signal-terminated
process): `combine ⟨-9, []⟩ ⟨0, []⟩` has code 0. -/
theorem C7_counterexample :
    (Vmupdate.combine ⟨-9, []⟩ ⟨0, []⟩).code = 0 ∧
    (⟨-9, []⟩ : Vmupdate.CommandResult).code ≠ 0 ∧
    (⟨0, []⟩ : Vmupdate.CommandResult).code = 0 := by
  decide

/-- C7 (amended): combine takes the max of the codes and concatenates
the lines in order, is associative, and a later successful step cannot
mask an earlier *positive* exit code (a negative code — signal kill —
can be masked by `max` with 0); `run_entrypoint`'s result is exactly the
combine of its two step results. -/
theorem C7_combine_properties (A B C : Vmupdate.CommandResult)
    (s : Vmupdate.Session) (p : String) (args : List String)
    (chmodR runWaitR : Vmupdate.SyncResult) (runStreamR : Vmupdate.StreamRun) :
    (Vmupdate.combine A B).code = max A.code B.code ∧
    (Vmupdate.combine A B).lines = A.lines ++ B.lines ∧
    Vmupdate.combine (Vmupdate.combine A B) C =
      Vmupdate.combine A (Vmupdate.combine B C) ∧
    (0 < A.code → 0 < (Vmupdate.combine A B).code) ∧
    (Vmupdate.run_entrypoint s p args chmodR runWaitR runStreamR).result =
      ((Vmupdate.combine
          ⟨(Vmupdate.run_shell_wait s.qname s.status_notified chmodR).1.1,
           (Vmupdate.run_shell_wait s.qname s.status_notified chmodR).1.2⟩
          ⟨(Vmupdate.entry_step2 s chmodR runWaitR runStreamR).1.1,
           (Vmupdate.entry_step2 s chmodR runWaitR runStreamR).1.2⟩).code,
       (Vmupdate.combine
          ⟨(Vmupdate.run_shell_wait s.qname s.status_notified chmodR).1.1,
           (Vmupdate.run_shell_wait s.qname s.status_notified chmodR).1.2⟩
          ⟨(Vmupdate.entry_step2 s chmodR runWaitR runStreamR).1.1,
           (Vmupdate.entry_step2 s chmodR runWaitR runStreamR).1.2⟩).lines) := by
  refine ⟨rfl, rfl, ?_, ?_, ?_⟩
  · simp [Vmupdate.combine, max_assoc]
  · intro h
    exact lt_max_of_lt_left h
  · simp [Vmupdate.run_entrypoint, Vmupdate.entry_step2, Vmupdate.combine]

/-- C7 witness: the no-masking property applied at a concrete positive
earlier code. -/
theorem C7_witness : 0 < (Vmupdate.combine ⟨2, ["a"]⟩ ⟨0, []⟩).code := by
  exact (C7_combine_properties ⟨2, ["a"]⟩ ⟨0, []⟩ ⟨1, ["b"]⟩
    Vmupdate.sampleSession "/e" [] (Vmupdate.SyncResult.ok [] [])
    (Vmupdate.SyncResult.ok [] []) ⟨[], [], 0⟩).2.2.2.1 (by decide)

/-- Helper for C5: once the latch is set, `_collect_stderr` appends every
remaining nonempty line verbatim to the buffer and pushes no event. -/
theorem collect_stderr_latched (qname : String) :
    ∀ b : List String, (∀ l ∈ b, l ≠ "") →
      Vmupdate._collect_stderr qname true b = (Vmupdate.joinAll b, []) := by
  intro b
  induction b with
  | nil => intro _; rfl
  | cons l rest ih =>
    intro h
    have hl : l ≠ "" := (h l (List.mem_cons_self l rest))
    have hrest := ih (fun x hx => h x (List.mem_cons_of_mem l hx))
    simp [Vmupdate._collect_stderr, hl, hrest, Vmupdate.joinAll]

/-- Helper for C5: before the latch, every nonempty line that classifies
as a float is forwarded as a `Pending` event (in input order) and not
buffered, and every line that does not classify is buffered; no line
equal to 100.0 occurring means the latch stays unset. -/
theorem collect_stderr_preLatch (qname : String) :
    ∀ a : List String,
      (∀ l ∈ a, l ≠ "" ∧ Vmupdate.latchesLine l = false) →
      Vmupdate._collect_stderr qname false a =
        (Vmupdate.joinAll (a.filter (fun l => Vmupdate.classifiedOf l = Option.none)),
         (a.filterMap Vmupdate.classifiedOf).map (Vmupdate.StatusInfo.pending qname)) := by
  intro a
  induction a with
  | nil => intro _; rfl
  | cons l rest ih =>
    intro h
    obtain ⟨hl, hlat⟩ := h l (List.mem_cons_self l rest)
    have hrest := ih (fun x hx => h x (List.mem_cons_of_mem l hx))
    cases hcl : Vmupdate.classifiedOf l with
    | none =>
      have : Vmupdate.parsePyFloat
          (Vmupdate.string_sanitization (Vmupdate.pyRstrip l)) = Option.none := hcl
      simp [Vmupdate._collect_stderr, hl, this, hrest, Vmupdate.joinAll, hcl]
    | some p =>
      have hp : Vmupdate.parsePyFloat
          (Vmupdate.string_sanitization (Vmupdate.pyRstrip l)) = Option.some p := hcl
      have hph : Vmupdate.PyFloat.isHundred p = false := by
        have := hlat
        rw [Vmupdate.latchesLine, hcl] at this
        exact this
      simp [Vmupdate._collect_stderr, hl, hp, hph, hrest, Vmupdate.joinAll, hcl]

/-- C5: in live-streaming mode, every nonempty diagnostic line that
classifies as a float before the latch is forwarded as a `Pending` event
in input order and not buffered; a line that does not classify is
buffered; and the first line classifying as 100.0 latches permanently —
it still emits its own `Pending 100` event, and every later line
(numeric-looking or not) is appended verbatim to the buffer and never
reinterpreted as progress. -/
theorem C5_latch_classification (qname : String) (a b : List String) (t : String)
    (ha : ∀ l ∈ a, l ≠ "" ∧ Vmupdate.latchesLine l = false)
    (hb : ∀ l ∈ b, l ≠ "") (ht : t ≠ "")
    (htl : Vmupdate.latchesLine t = true) :
    Vmupdate._collect_stderr qname false (a ++ t :: b) =
      (Vmupdate.joinAll
         (a.filter (fun l => Vmupdate.classifiedOf l = Option.none) ++ b),
       (a.filterMap Vmupdate.classifiedOf).map (Vmupdate.StatusInfo.pending qname) ++
         [Vmupdate.StatusInfo.pending qname (Vmupdate.PyFloat.num 100)]) := by
  have ht100 : Vmupdate.classifiedOf t = Option.some (Vmupdate.PyFloat.num 100) := by
    rw [Vmupdate.latchesLine] at htl
    cases hcl : Vmupdate.classifiedOf t with
    | none => rw [hcl] at htl; exact absurd htl (by simp)
    | some p =>
      rw [hcl] at htl
      cases p with
      | num q =>
        have hq : q = 100 := by
          simpa [Vmupdate.PyFloat.isHundred] using htl
        rw [hq]
      | inf n => exact absurd htl (by simp [Vmupdate.PyFloat.isHundred])
      | nan => exact absurd htl (by simp [Vmupdate.PyFloat.isHundred])
  induction a with
  | nil =>
    have hp : Vmupdate.parsePyFloat
        (Vmupdate.string_sanitization (Vmupdate.pyRstrip t)) =
          Option.some (Vmupdate.PyFloat.num 100) := ht100
    have hlat := collect_stderr_latched qname b hb
    simp [Vmupdate._collect_stderr, ht, hp, hlat,
      Vmupdate.PyFloat.isHundred]
  | cons l rest ih =>
    obtain ⟨hl, hlatl⟩ := ha l (List.mem_cons_self l rest)
    have hrest := ih (fun x hx => ha x (List.mem_cons_of_mem l hx))
    cases hcl : Vmupdate.classifiedOf l with
    | none =>
      have hp : Vmupdate.parsePyFloat
          (Vmupdate.string_sanitization (Vmupdate.pyRstrip l)) = Option.none := hcl
      simp only [List.cons_append]
      simp [Vmupdate._collect_stderr, hl, hp, hrest, Vmupdate.joinAll, hcl]
    | some p =>
      have hp : Vmupdate.parsePyFloat
          (Vmupdate.string_sanitization (Vmupdate.pyRstrip l)) = Option.some p := hcl
      have hph : Vmupdate.PyFloat.isHundred p = false := by
        have := hlatl
        rw [Vmupdate.latchesLine, hcl] at this
        exact this
      simp only [List.cons_append]
      simp [Vmupdate._collect_stderr, hl, hp, hph, hrest, Vmupdate.joinAll, hcl]

/-- C5 witness: the spec's worked example — `12.5` and `50.0` become
Pending events, `building...` is buffered, `100.0` emits Pending 100 and
latches, then `99.0` and `done` are buffered verbatim. -/
theorem C5_witness :
    Vmupdate._collect_stderr "vm" false
        ["12.5\n", "50.0\n", "building...\n", "100.0\n", "99.0\n", "done\n"] =
      ("building...\n99.0\ndone\n",
       [Vmupdate.StatusInfo.pending "vm" (Vmupdate.PyFloat.num (25 / 2)),
        Vmupdate.StatusInfo.pending "vm" (Vmupdate.PyFloat.num 50),
        Vmupdate.StatusInfo.pending "vm" (Vmupdate.PyFloat.num 100)]) := by
  have h := C5_latch_classification "vm"
    ["12.5\n", "50.0\n", "building...\n"] ["99.0\n", "done\n"] "100.0\n"
    (by with_unfolding_all decide) (by decide) (by decide)
    (by with_unfolding_all decide)
  rw [show (["12.5\n", "50.0\n", "building...\n"] ++
    "100.0\n" :: ["99.0\n", "done\n"]) =
    ["12.5\n", "50.0\n", "building...\n", "100.0\n", "99.0\n", "done\n"] from rfl] at h
  rw [h]
  with_unfolding_all decide

/-- Helper for C9: a nonempty character list splits into at least one
line. -/
theorem splitlines_ne_nil :
    ∀ l : List Char, l ≠ [] → Vmupdate.splitlinesChars l ≠ [] := by
  intro l hl
  cases l with
  | nil => exact absurd rfl hl
  | cons c rest =>
    by_cases hcr : c = '\r' ∧ ∃ rest2, rest = '\n' :: rest2
    · obtain ⟨hc, rest2, hr⟩ := hcr
      subst hc; subst hr
      rw [Vmupdate.splitlinesChars.eq_2]
      simp
    · have h3 := Vmupdate.splitlinesChars.eq_3 c rest
        (fun r1 h1 h2 => hcr ⟨h1, r1, h2⟩)
      rw [h3]
      by_cases hbr : Vmupdate.isBreakChar c = true
      · rw [if_pos hbr]; simp
      · rw [if_neg hbr]
        cases Vmupdate.splitlinesChars rest <;> simp

/-- Helper for C9: the head case of the newline-split lemma — a leading
`\n` always closes one (empty) line. -/
theorem splitlines_nl_head (b : List Char) :
    Vmupdate.splitlinesChars ('\n' :: b) = [] :: Vmupdate.splitlinesChars b := by
  have h3 := Vmupdate.splitlinesChars.eq_3 '\n' b
    (fun r1 h1 _ => absurd h1 (by decide))
  rw [h3, if_pos (by decide)]

/-- Helper for C9: the generic cons step of the newline-split lemma,
when the `\r\n` pattern does not straddle the head. -/
theorem splitlines_step (c : Char) (d' b : List Char)
    (hL : ∀ r1, c = '\r' → d' ++ '\n' :: b = '\n' :: r1 → False)
    (hR : ∀ r1, c = '\r' → d' ++ ['\n'] = '\n' :: r1 → False)
    (ih : Vmupdate.splitlinesChars (d' ++ '\n' :: b) =
      Vmupdate.splitlinesChars (d' ++ ['\n']) ++ Vmupdate.splitlinesChars b) :
    Vmupdate.splitlinesChars ((c :: d') ++ '\n' :: b) =
      Vmupdate.splitlinesChars ((c :: d') ++ ['\n']) ++
        Vmupdate.splitlinesChars b := by
  have hL' := Vmupdate.splitlinesChars.eq_3 c (d' ++ '\n' :: b) hL
  have hR' := Vmupdate.splitlinesChars.eq_3 c (d' ++ ['\n']) hR
  rw [List.cons_append, hL', List.cons_append, hR']
  by_cases hbr : Vmupdate.isBreakChar c = true
  · rw [if_pos hbr, if_pos hbr, ih]
    simp
  · rw [if_neg hbr, if_neg hbr, ih]
    cases hX : Vmupdate.splitlinesChars (d' ++ ['\n']) with
    | nil => exact absurd hX (splitlines_ne_nil _ (by simp))
    | cons x xs => simp

/-- Helper for C9: splitting text that ends with `\n` distributes over a
following text — `splitlines (d ++ "\n" ++ b) = splitlines (d ++ "\n")
++ splitlines b`. -/
theorem splitlines_append_newline :
    ∀ (n : ℕ) (d b : List Char), d.length ≤ n →
      Vmupdate.splitlinesChars (d ++ '\n' :: b) =
        Vmupdate.splitlinesChars (d ++ ['\n']) ++ Vmupdate.splitlinesChars b := by
  intro n
  induction n with
  | zero =>
    intro d b hd
    have hdnil : d = [] := List.eq_nil_of_length_eq_zero (Nat.le_zero.mp hd)
    subst hdnil
    simpa using splitlines_nl_head b
  | succ n ih =>
    intro d b hd
    cases d with
    | nil => simpa using splitlines_nl_head b
    | cons c d' =>
      by_cases hc : c = '\r'
      · subst hc
        cases d' with
        | nil =>
          rw [show (['\r'] ++ '\n' :: b) = '\r' :: '\n' :: b from rfl,
            Vmupdate.splitlinesChars.eq_2,
            show (['\r'] ++ ['\n']) = ['\r', '\n'] from rfl,
            show Vmupdate.splitlinesChars ['\r', '\n'] = [[]] from by decide]
          rfl
        | cons e d2 =>
          by_cases he : e = '\n'
          · subst he
            have hlen : d2.length ≤ n := by
              simp only [List.length_cons] at hd
              omega
            have ih2 := ih d2 b hlen
            rw [show (('\r' :: '\n' :: d2) ++ '\n' :: b) =
                '\r' :: '\n' :: (d2 ++ '\n' :: b) from rfl,
              Vmupdate.splitlinesChars.eq_2,
              show (('\r' :: '\n' :: d2) ++ ['\n']) =
                '\r' :: '\n' :: (d2 ++ ['\n']) from rfl,
              Vmupdate.splitlinesChars.eq_2, ih2]
            rfl
          · have hlen : (e :: d2).length ≤ n := by
              simp only [List.length_cons] at hd ⊢
              omega
            refine splitlines_step '\r' (e :: d2) b ?_ ?_ (ih (e :: d2) b hlen)
            · intro r1 _ h2
              exact he (List.head_eq_of_cons_eq h2)
            · intro r1 _ h2
              exact he (List.head_eq_of_cons_eq h2)
      · have hlen : d'.length ≤ n := by
          simp only [List.length_cons] at hd
          omega
        refine splitlines_step c d' b ?_ ?_ (ih d' b hlen)
        · intro r1 h1 _; exact hc h1
        · intro r1 h1 _; exact hc h1

/-- C9 counterexample: when the error payload does not end with a line
terminator, concatenating the two identical slots merges the payload's
last line with its first copy: payload `"abc"` yields the single line
`"abcabc"`, in which the payload line `"abc"` does not appear at all —
not twice. -/
theorem C9_counterexample :
    (Vmupdate._run_command_and_wait_for_output "vm" false
        (Vmupdate.SyncResult.fail 5 [97, 98, 99])).stdoutBytes = [97, 98, 99] ∧
    (Vmupdate._run_command_and_wait_for_output "vm" false
        (Vmupdate.SyncResult.fail 5 [97, 98, 99])).stderrBytes = [97, 98, 99] ∧
    Vmupdate._collect_output [97, 98, 99] [97, 98, 99] = ["abcabc"] ∧
    ¬ ("abc" ∈ Vmupdate._collect_output [97, 98, 99] [97, 98, 99]) := by
  decide

/-- C9 (amended): on any wait-strategy failure the error payload fills
both the captured-stdout and captured-stderr slots; after batch
collection each payload line appears twice — once per slot — exactly
when the payload ends with a newline byte: the collected lines are then
the lines of the stdout slot followed by the lines of the stderr slot.
Without a trailing terminator the payload's last line merges with its
first copy. -/
theorem C9_payload_fills_both_slots (qname : String) (notified : Bool)
    (returncode : ℤ) (output : List ℕ) (q : List ℕ) :
    (Vmupdate._run_command_and_wait_for_output qname notified
        (Vmupdate.SyncResult.fail returncode output)).stdoutBytes = output ∧
    (Vmupdate._run_command_and_wait_for_output qname notified
        (Vmupdate.SyncResult.fail returncode output)).stderrBytes = output ∧
    Vmupdate._collect_output (q ++ [10]) (q ++ [10]) =
      Vmupdate._collect_output (q ++ [10]) [] ++
        Vmupdate._collect_output [] (q ++ [10]) := by
  refine ⟨?_, ?_, ?_⟩
  · by_cases h : returncode = 100 <;>
      simp [Vmupdate._run_command_and_wait_for_output, h]
  · by_cases h : returncode = 100 <;>
      simp [Vmupdate._run_command_and_wait_for_output, h]
  · have hdec : Vmupdate.decodeAsciiIgnore (q ++ [10]) =
        Vmupdate.decodeAsciiIgnore q ++ ['\n'] := by
      simp [Vmupdate.decodeAsciiIgnore, List.filter_append, List.map_append]
    have hsplit := splitlines_append_newline
      (Vmupdate.decodeAsciiIgnore q).length (Vmupdate.decodeAsciiIgnore q)
      (Vmupdate.decodeAsciiIgnore q ++ ['\n']) (le_refl _)
    simp only [Vmupdate._collect_output, Vmupdate.collectText, hdec]
    rw [show Vmupdate.decodeAsciiIgnore [] = [] from rfl,
      List.append_nil, List.nil_append]
    rw [show (Vmupdate.decodeAsciiIgnore q ++ ['\n']) ++
        (Vmupdate.decodeAsciiIgnore q ++ ['\n']) =
      Vmupdate.decodeAsciiIgnore q ++ '\n' ::
        (Vmupdate.decodeAsciiIgnore q ++ ['\n']) from by simp]
    rw [hsplit, List.map_append]

/-- C10 witness: the char-by-char theorem applied at a concrete open
failure with message "boom". -/
theorem C10_witness :
    ∃ tr, Vmupdate.transfer_agent Vmupdate.sampleSession "/src/x"
        (Vmupdate.SyncResult.ok [] []) (Vmupdate.CopyRun.openFailed "boom")
        (Vmupdate.SyncResult.ok [] []) = Except.ok tr ∧
      tr.result.2 = ["b", "o", "o", "m"] := by
  obtain ⟨tr, h1, h2, h3⟩ := C10_copy_error_arrives_char_by_char
    Vmupdate.sampleSession "/src/x" (Vmupdate.SyncResult.ok [] [])
    (Vmupdate.SyncResult.ok [] []) (Vmupdate.CopyRun.openFailed "boom")
    (by decide) (by decide) (by decide)
  refine ⟨tr, h1, ?_⟩
  rw [h2]
  decide
